import Mathlib

/-!
Shallow embedding of the RayNeo Air 3S Pro OpenVR driver core.

Covered source, translated definition by definition:
- the IMU orientation integrator and recenter logic of `MyDeviceProvider`
  (`src/device_provider.h`, `src/device_provider.cpp`, `RayneoEventLoop`
  lines 201-261, `GetImuOrientation`, `Recenter`, the `Consume*Pending`
  accessors);
- the per-frame button debounce and brightness double-click arbitration of
  `MyHMDControllerDeviceDriver::MyRunFrame` and the pose production of
  `GetPose` (`src/hmd_device_driver.cpp`);
- the desktop-coordinate resolution retry loop of
  `DisplayEdidFinder::PopulateDesktopCoordinates`
  (`src/display_edid_finder.cpp`, Windows path).

Modelling conventions: `float` arithmetic is modelled over the reals
(exactly one value per source expression, no rounding); the `uint32`
device tick is modelled as a natural number - the source only compares
ticks (`s.tick > last_imu_tick_`) and subtracts under that guard, so the
embedding agrees with the machine semantics on every run without
wraparound, and a wrapped-around tick is simply a smaller number (the
skip branch) in both. Real-time sleeps and thread interleavings are not
modelled; the event loop body is modelled as the pure state transformer
it applies per received event.
-/

namespace RayneoDriver

/-- A quaternion as four scalar fields, mirroring the four `float` fields
`imu_q_w_ .. imu_q_z_` of `MyDeviceProvider`. -/
structure Quat where
  w : ℝ
  x : ℝ
  y : ℝ
  z : ℝ

/-- A 3-vector of reals (angular velocity components `wx, wy, wz`). -/
structure V3 where
  x : ℝ
  y : ℝ
  z : ℝ

/-- Quaternion product, exactly the component formulas of
`device_provider.cpp` lines 251-254 (`q_new = q * dq`), which are also the
formulas of `GetImuOrientation` (`device_provider.h` lines 86-89). -/
noncomputable def quatMul (a b : Quat) : Quat :=
  ⟨a.w * b.w - a.x * b.x - a.y * b.y - a.z * b.z,
   a.w * b.x + a.x * b.w + a.y * b.z - a.z * b.y,
   a.w * b.y - a.x * b.z + a.y * b.w + a.z * b.x,
   a.w * b.z + a.x * b.y - a.y * b.x + a.z * b.w⟩

/-- Conjugate of a quaternion: `device_provider.h` line 84
(`inverse of unit quaternion is conjugate`). -/
noncomputable def quatConj (a : Quat) : Quat := ⟨a.w, -a.x, -a.y, -a.z⟩

/-- Squared norm `w*w + x*x + y*y + z*z` as summed in
`device_provider.cpp` line 256. -/
noncomputable def quatNormSq (q : Quat) : ℝ :=
  q.w * q.w + q.x * q.x + q.y * q.y + q.z * q.z

/-- Squared 3-vector norm `wx*wx + wy*wy + wz*wz`
(`device_provider.cpp` lines 234 and 242). -/
noncomputable def v3NormSq (v : V3) : ℝ := v.x * v.x + v.y * v.y + v.z * v.z

/-- The mutable state of `MyDeviceProvider` relevant to orientation,
position, sleep and button notifications (`device_provider.h`
lines 44-74), with the source field names. -/
structure ProviderState where
  imu_q_w : ℝ
  imu_q_x : ℝ
  imu_q_y : ℝ
  imu_q_z : ℝ
  last_imu_tick : ℕ
  velocity_x : ℝ
  velocity_y : ℝ
  velocity_z : ℝ
  position_x : ℝ
  position_y : ℝ
  position_z : ℝ
  gyro_scale : ℝ
  sleeping : Bool
  recenter_q_w : ℝ
  recenter_q_x : ℝ
  recenter_q_y : ℝ
  recenter_q_z : ℝ
  button_system_click_pending : Bool
  button_trigger_click_pending : Bool
  button_grip_click_pending : Bool
  button_appmenu_click_pending : Bool

/-- The member initializers of `MyDeviceProvider` (`device_provider.h`):
identity quaternion, `last_imu_tick_ = 0`, zero velocity, position
`(0, 1.5, 0)`, `gyro_scale_ = 0.2`, identity recenter anchor, no pending
clicks, not sleeping. -/
noncomputable def initProviderState : ProviderState :=
  ⟨1, 0, 0, 0, 0, 0, 0, 0, 0, 1.5, 0, 0.2, false, 1, 0, 0, 0,
   false, false, false, false⟩

/-- The running orientation quaternion `imu_q_w_ .. imu_q_z_` of a
provider state, as one `Quat`. -/
noncomputable def stateQ (s : ProviderState) : Quat :=
  ⟨s.imu_q_w, s.imu_q_x, s.imu_q_y, s.imu_q_z⟩

/-- The recenter anchor quaternion `recenter_q_w_ .. recenter_q_z_`. -/
noncomputable def stateAnchor (s : ProviderState) : Quat :=
  ⟨s.recenter_q_w, s.recenter_q_x, s.recenter_q_y, s.recenter_q_z⟩

/-- One IMU sample as delivered by `RAYNEO_EVENT_IMU_SAMPLE`
(`evt.data.imu`): validity flag, device tick, and the two gyro arrays
(`gyroRad` in rad/s, `gyroDps` in deg/s). -/
structure ImuSample where
  valid : Bool
  tick : ℕ
  gyroRad : V3
  gyroDps : V3

/-- The conversion constant `3.14159265358979323846f / 180.f` of
`device_provider.cpp` line 221 (a literal in the source, not the real pi). -/
noncomputable def deg2rad : ℝ := 3.14159265358979323846 / 180

/-- Effective angular velocity of a sample: `gyroRad` unless all three of
its components are exactly zero, in which case the source falls back to
converting `gyroDps` (`device_provider.cpp` lines 216-225). -/
noncomputable def effW (smp : ImuSample) : V3 :=
  if smp.gyroRad.x = 0 ∧ smp.gyroRad.y = 0 ∧ smp.gyroRad.z = 0 then
    ⟨smp.gyroDps.x * deg2rad, smp.gyroDps.y * deg2rad, smp.gyroDps.z * deg2rad⟩
  else smp.gyroRad

/-- Time delta in seconds from the stored last tick and the sample tick:
zero unless a prior tick exists (`last_imu_tick_ != 0`) and the sample
tick is strictly later; otherwise `dtMs * 0.001`
(`device_provider.cpp` lines 208-212). -/
noncomputable def dtOf (lastTick tick : ℕ) : ℝ :=
  if lastTick ≠ 0 ∧ lastTick < tick then ((tick - lastTick : ℕ) : ℝ) * 0.001 else 0

/-- The sample's effective angular velocity scaled by the provider's
sensitivity `gyro_scale_` (`device_provider.cpp` lines 229-231). -/
noncomputable def scaledW (s : ProviderState) (smp : ImuSample) : V3 :=
  ⟨(effW smp).x * s.gyro_scale, (effW smp).y * s.gyro_scale, (effW smp).z * s.gyro_scale⟩

/-- The per-step clamp of `device_provider.cpp` lines 236-237:
`if (angle > maxStep) angle = maxStep` with `maxStep = 0.35`. -/
noncomputable def clampAngle (a : ℝ) : ℝ := if 0.35 < a then 0.35 else a

/-- The pre-clamp rotation angle `|scaled angular velocity| * dt`
(`device_provider.cpp` line 234). -/
noncomputable def preClampAngle (s : ProviderState) (smp : ImuSample) : ℝ :=
  Real.sqrt (v3NormSq (scaledW s smp)) * dtOf s.last_imu_tick smp.tick

/-- The delta quaternion built from the clamped angle and the normalized
axis (`device_provider.cpp` lines 239-249): half angle, cosine in the
scalar slot and the axis times the half-angle sine in the vector slots,
the axis being the scaled angular velocity multiplied by
`invMag = 1 / sqrt(magnitude squared)`. -/
noncomputable def deltaQuat (w : V3) (angle : ℝ) : Quat :=
  let invMag := 1 / Real.sqrt (v3NormSq w)
  let sinHalf := Real.sin (angle * 0.5)
  ⟨Real.cos (angle * 0.5),
   w.x * invMag * sinHalf, w.y * invMag * sinHalf, w.z * invMag * sinHalf⟩

/-- The final renormalization (`device_provider.cpp` lines 255-258):
divide all four components by the magnitude when it is positive,
otherwise keep the product unnormalized. -/
noncomputable def normalizeQ (n : Quat) : Quat :=
  let nrm := Real.sqrt (quatNormSq n)
  if 0 < nrm then ⟨n.w / nrm, n.x / nrm, n.y / nrm, n.z / nrm⟩ else n

/-- The quaternion update of one integration step
(`device_provider.cpp` lines 227-259), given the current quaternion, the
scaled angular velocity and `dt`: when `dt > 0` and the clamped angle is
positive, right-multiply the delta quaternion into the running quaternion
and renormalize; in every other case the quaternion is returned
unchanged. -/
noncomputable def integrateQuat (q : Quat) (w : V3) (dt : ℝ) : Quat :=
  if 0 < dt then
    let angle := clampAngle (Real.sqrt (v3NormSq w) * dt)
    if 0 < angle then normalizeQ (quatMul q (deltaQuat w angle)) else q
  else q

/-- Processing one `RAYNEO_EVENT_IMU_SAMPLE` in `RayneoEventLoop`
(`device_provider.cpp` lines 204-261): ignored when `!s.valid`; otherwise
the sample tick is stored unconditionally (`last_imu_tick_ = s.tick`,
line 213) and the quaternion is updated by `integrateQuat` from the old
tick's `dt`. -/
noncomputable def integrateSample (s : ProviderState) (smp : ImuSample) : ProviderState :=
  if smp.valid then
    let nq := integrateQuat (stateQ s) (scaledW s smp) (dtOf s.last_imu_tick smp.tick)
    { s with last_imu_tick := smp.tick,
             imu_q_w := nq.w, imu_q_x := nq.x, imu_q_y := nq.y, imu_q_z := nq.z }
  else s

/-- A comparison sample for the clamp claim: the same sample with both
gyro arrays scaled by a factor `c`, which keeps the axis direction and
multiplies the pre-clamp rotation angle by `c` (for `c > 0`). -/
noncomputable def scaleSample (c : ℝ) (smp : ImuSample) : ImuSample :=
  { smp with
    gyroRad := ⟨c * smp.gyroRad.x, c * smp.gyroRad.y, c * smp.gyroRad.z⟩,
    gyroDps := ⟨c * smp.gyroDps.x, c * smp.gyroDps.y, c * smp.gyroDps.z⟩ }

/-- `MyDeviceProvider::GetImuOrientation` (`device_provider.h`
lines 78-90): the anchor-relative orientation
`conj(recenter anchor) * current`, written in the source as the inlined
product of the conjugated anchor with the current quaternion. -/
noncomputable def GetImuOrientation (s : ProviderState) : Quat :=
  quatMul (quatConj (stateAnchor s)) (stateQ s)

/-- `MyDeviceProvider::Recenter` (`device_provider.h` lines 114-127):
snapshot the current quaternion into the recenter anchor and zero the
horizontal velocity and the X/Z position; `velocity_y_`, `position_y_`
and everything else are untouched. -/
noncomputable def Recenter (s : ProviderState) : ProviderState :=
  { s with recenter_q_w := s.imu_q_w, recenter_q_x := s.imu_q_x,
           recenter_q_y := s.imu_q_y, recenter_q_z := s.imu_q_z,
           velocity_x := 0, velocity_z := 0,
           position_x := 0, position_z := 0 }

/-- Arrival of `RAYNEO_NOTIFY_BUTTON` (`device_provider.cpp` line 281):
sets the system-click pending flag. -/
noncomputable def notifySystemButton (s : ProviderState) : ProviderState :=
  { s with button_system_click_pending := true }

/-- Arrival of `RAYNEO_NOTIFY_BUTTON_VOLUME_UP` (line 285): sets the
trigger-click pending flag. -/
noncomputable def notifyVolumeUp (s : ProviderState) : ProviderState :=
  { s with button_trigger_click_pending := true }

/-- Arrival of `RAYNEO_NOTIFY_BUTTON_VOLUME_DOWN` (line 289): sets the
grip-click pending flag. -/
noncomputable def notifyVolumeDown (s : ProviderState) : ProviderState :=
  { s with button_grip_click_pending := true }

/-- Arrival of `RAYNEO_NOTIFY_BUTTON_BRIGHTNESS` (line 293): sets the
app-menu-click pending flag. -/
noncomputable def notifyBrightness (s : ProviderState) : ProviderState :=
  { s with button_appmenu_click_pending := true }

/-- `ConsumeButtonNotifyPending` (`device_provider.h` line 108):
`exchange(false)` on the system pending flag - returns the old value and
clears the flag. -/
noncomputable def ConsumeButtonNotifyPending (s : ProviderState) : Bool × ProviderState :=
  (s.button_system_click_pending, { s with button_system_click_pending := false })

/-- `ConsumeTriggerClickPending` (`device_provider.h` line 109). -/
noncomputable def ConsumeTriggerClickPending (s : ProviderState) : Bool × ProviderState :=
  (s.button_trigger_click_pending, { s with button_trigger_click_pending := false })

/-- `ConsumeGripClickPending` (`device_provider.h` line 110). -/
noncomputable def ConsumeGripClickPending (s : ProviderState) : Bool × ProviderState :=
  (s.button_grip_click_pending, { s with button_grip_click_pending := false })

/-- `ConsumeAppMenuClickPending` (`device_provider.h` line 111). -/
noncomputable def ConsumeAppMenuClickPending (s : ProviderState) : Bool × ProviderState :=
  (s.button_appmenu_click_pending, { s with button_appmenu_click_pending := false })

/-- The tracking result values of `vr::ETrackingResult` used by `GetPose`:
the zero-initialized value of `DriverPose_t pose = {0}`, `Running_OK` and
`Running_OutOfRange`. -/
inductive ETrackingResult where
  | zeroInit
  | runningOK
  | runningOutOfRange
deriving DecidableEq

/-- The fields of `vr::DriverPose_t` that `GetPose` writes
(`hmd_device_driver.cpp` lines 251-305). -/
structure DriverPose where
  qRotationW : ℝ
  qRotationX : ℝ
  qRotationY : ℝ
  qRotationZ : ℝ
  posX : ℝ
  posY : ℝ
  posZ : ℝ
  poseIsValid : Bool
  result : ETrackingResult
  deviceIsConnected : Bool
  shouldApplyHeadModel : Bool

/-- `MyHMDControllerDeviceDriver::GetPose` (`hmd_device_driver.cpp`
lines 251-306) as the sequence of field assignments the source performs:
read the provider orientation, renormalize it when its magnitude exceeds
`0.00001` (the `std::isfinite` conjunct is vacuous over the reals) and
substitute identity otherwise; position `y` is `1.0` when sleeping else
`1.5`; `poseIsValid = !sleeping`; the `result` field is first set to
`Running_OutOfRange` under `sleeping` (line 289) and then assigned
`Running_OK` unconditionally (line 300), exactly as in the source. -/
noncomputable def GetPose (s : ProviderState) : DriverPose :=
  let q0 := GetImuOrientation s
  let nrm := Real.sqrt (quatNormSq q0)
  let q : Quat :=
    if 0.00001 < nrm then ⟨q0.w / nrm, q0.x / nrm, q0.y / nrm, q0.z / nrm⟩
    else ⟨1, 0, 0, 0⟩
  let sleeping := s.sleeping
  let p1 : DriverPose :=
    { qRotationW := q.w, qRotationX := q.x, qRotationY := q.y, qRotationZ := q.z,
      posX := 0, posY := if sleeping then 1.0 else 1.5, posZ := 0,
      poseIsValid := !sleeping,
      result := ETrackingResult.zeroInit,
      deviceIsConnected := true,
      shouldApplyHeadModel := true }
  let p2 := if sleeping then { p1 with result := ETrackingResult.runningOutOfRange } else p1
  { p2 with result := ETrackingResult.runningOK }

/-!
The per-frame button debounce and double-click arbitration of
`MyHMDControllerDeviceDriver::MyRunFrame` (`hmd_device_driver.cpp`
lines 357-446). This part of the model is computable (naturals and
booleans only). The frame counters are C `int`s that the source sets to
`30` or `200` and decrements only under a `> 0` guard, so they never go
negative and natural numbers with truncated subtraction coincide with
them.
-/

/-- The per-frame inputs of one `MyRunFrame` call: which of the four
provider pending flags the call's `Consume*Pending` reads return `true`,
and the value of `std::chrono::steady_clock::now()` in milliseconds. -/
structure FrameInput where
  sysPending : Bool
  trigPending : Bool
  gripPending : Bool
  appmenuPending : Bool
  nowMs : ℕ

/-- The mutable per-frame state of `MyHMDControllerDeviceDriver` used by
`MyRunFrame`: the four hold counters, the brightness double-click wait
flag, the deferred single-click frame countdown, and the last brightness
click time in milliseconds. -/
structure HmdState where
  button_system_frames_remaining : ℕ
  button_trigger_frames_remaining : ℕ
  button_grip_frames_remaining : ℕ
  button_appmenu_frames_remaining : ℕ
  brightness_waiting_for_double : Bool
  brightness_single_click_delay : ℕ
  last_brightness_click_time : ℕ

/-- The zero-initialized driver state before any notification. -/
def initHmdState : HmdState := ⟨0, 0, 0, 0, false, 0, 0⟩

/-- What one `MyRunFrame` call reports and triggers: the four
`UpdateBooleanComponent` pressed values, whether `prov->Recenter()` was
invoked (brightness double click), and whether the deferred single-click
app-menu hold was started this frame. -/
structure FrameOutput where
  sysPressed : Bool
  trigPressed : Bool
  gripPressed : Bool
  appmenuPressed : Bool
  recentered : Bool
  deferredSingleClick : Bool

/-- The consume section of `MyRunFrame` (`hmd_device_driver.cpp`
lines 368-403): a consumed simple-button pending flag restarts that hold
counter at 30; a consumed app-menu click either (already waiting and the
second click is within 1000 ms of the first) ends the wait with
`brightness_single_click_delay_ = 0`, or starts the wait with a 200-frame
delay and records the click time. -/
def consumeState (s : HmdState) (inp : FrameInput) : HmdState :=
  let s1 := { s with
    button_system_frames_remaining :=
      if inp.sysPending then 30 else s.button_system_frames_remaining,
    button_trigger_frames_remaining :=
      if inp.trigPending then 30 else s.button_trigger_frames_remaining,
    button_grip_frames_remaining :=
      if inp.gripPending then 30 else s.button_grip_frames_remaining }
  if inp.appmenuPending then
    if s.brightness_waiting_for_double ∧ inp.nowMs - s.last_brightness_click_time < 1000 then
      { s1 with brightness_waiting_for_double := false, brightness_single_click_delay := 0 }
    else
      { s1 with brightness_waiting_for_double := true, brightness_single_click_delay := 200,
                last_brightness_click_time := inp.nowMs }
  else s1

/-- Whether the consume section calls `prov->Recenter()` this frame
(`hmd_device_driver.cpp` lines 389-394): an app-menu click consumed while
waiting for the second click, within 1000 ms of the first. -/
def recenterFired (s : HmdState) (inp : FrameInput) : Bool :=
  inp.appmenuPending && s.brightness_waiting_for_double
    && decide (inp.nowMs - s.last_brightness_click_time < 1000)

/-- The deferred-single-click section of `MyRunFrame`
(`hmd_device_driver.cpp` lines 406-414): while the delay counter is
positive decrement it, and if it reaches zero with the wait flag still
set, start the 30-frame app-menu hold and clear the wait flag. -/
def delayState (s : HmdState) : HmdState :=
  if 0 < s.brightness_single_click_delay then
    let d := s.brightness_single_click_delay - 1
    if d = 0 ∧ s.brightness_waiting_for_double then
      { s with brightness_single_click_delay := d,
               button_appmenu_frames_remaining := 30,
               brightness_waiting_for_double := false }
    else { s with brightness_single_click_delay := d }
  else s

/-- Whether the deferred single-click hold is emitted this frame: the
delay counter was 1 (so it reaches 0 this frame) and the wait flag is
still set. -/
def singleClickFired (s : HmdState) : Bool :=
  decide (0 < s.brightness_single_click_delay)
    && decide (s.brightness_single_click_delay - 1 = 0)
    && s.brightness_waiting_for_double

/-- The update section of `MyRunFrame` (`hmd_device_driver.cpp`
lines 417-443): each hold counter is decremented when positive (truncated
subtraction on naturals). -/
def updateState (s : HmdState) : HmdState :=
  { s with
    button_system_frames_remaining := s.button_system_frames_remaining - 1,
    button_trigger_frames_remaining := s.button_trigger_frames_remaining - 1,
    button_grip_frames_remaining := s.button_grip_frames_remaining - 1,
    button_appmenu_frames_remaining := s.button_appmenu_frames_remaining - 1 }

/-- One full `MyRunFrame` call: consume section, deferred-single-click
section, then the update section; each pressed value is the counter
compared against zero before the decrement, exactly as in the source. -/
def myRunFrame (s : HmdState) (inp : FrameInput) : HmdState × FrameOutput :=
  let s1 := consumeState s inp
  let s2 := delayState s1
  (updateState s2,
   ⟨decide (0 < s2.button_system_frames_remaining),
    decide (0 < s2.button_trigger_frames_remaining),
    decide (0 < s2.button_grip_frames_remaining),
    decide (0 < s2.button_appmenu_frames_remaining),
    recenterFired s inp,
    singleClickFired s1⟩)

/-- Fold `myRunFrame` over a list of per-frame inputs, collecting the
final state and the outputs of every frame in order. -/
def runFrames (s : HmdState) : List FrameInput → HmdState × List FrameOutput
  | [] => (s, [])
  | inp :: rest =>
    let step := myRunFrame s inp
    let next := runFrames step.1 rest
    (next.1, step.2 :: next.2)

/-- Number of frames in a run that invoked `Recenter()`. -/
def recenterCount (outs : List FrameOutput) : ℕ :=
  outs.countP fun o => o.recentered

/-- Number of frames in a run that emitted the deferred single-click
app-menu hold. -/
def singleClickCount (outs : List FrameOutput) : ℕ :=
  outs.countP fun o => o.deferredSingleClick

/-- A frame whose `Consume*Pending` reads all return `false`. -/
def quietInput : FrameInput := ⟨false, false, false, false, 0⟩

/-- A frame that consumes pending clicks of all three simple buttons. -/
def pressAllSimple : FrameInput := ⟨true, true, true, false, 0⟩

/-- A frame that consumes a pending app-menu (brightness) click at wall
clock `t` milliseconds. -/
def appClick (t : ℕ) : FrameInput := ⟨false, false, false, true, t⟩

/-- An output reporting nothing: no button pressed, no recenter, no
deferred hold. -/
def quietOutput : FrameOutput := ⟨false, false, false, false, false, false⟩

/-- The simple-button scenario: one pending notification for each simple
button consumed by the first `MyRunFrame` call, nothing afterwards. -/
def simpleScenarioInput (n : ℕ) : FrameInput := if n = 0 then pressAllSimple else quietInput

/-- Driver state before the `(n+1)`-th `MyRunFrame` call of the
simple-button scenario. -/
def simpleStateAt : ℕ → HmdState
  | 0 => initHmdState
  | n + 1 => (myRunFrame (simpleStateAt n) (simpleScenarioInput n)).1

/-- Output of the `(n+1)`-th `MyRunFrame` call of the simple-button
scenario. -/
def simpleOutputAt (n : ℕ) : FrameOutput :=
  (myRunFrame (simpleStateAt n) (simpleScenarioInput n)).2

/-- The double-click scenario: an app-menu click at time `t0`, `n` quiet
frames, then a second app-menu click at time `t1`. -/
def doubleClickInputs (n t0 t1 : ℕ) : List FrameInput :=
  appClick t0 :: (List.replicate n quietInput ++ [appClick t1])

/-- The single-click scenario: one app-menu click at time `t0` followed
by `m` quiet frames. -/
def singleClickInputs (m t0 : ℕ) : List FrameInput :=
  appClick t0 :: List.replicate m quietInput

/-- Driver state while waiting for a second brightness click: hold
counters zero, wait flag set, `d` frames left on the single-click delay,
first click recorded at time `t`. -/
def waitingState (d t : ℕ) : HmdState := ⟨0, 0, 0, 0, true, d, t⟩

/-- Driver state after the brightness arbitration has settled: hold
counters zero except `a` frames left on the app-menu hold, no wait
pending. -/
def idleState (a t : ℕ) : HmdState := ⟨0, 0, 0, a, false, 0, t⟩

/-!
Desktop coordinate resolution
(`DisplayEdidFinder::PopulateDesktopCoordinates`,
`src/display_edid_finder.cpp` lines 181-251, Windows path). The OS
enumeration (`EnumDisplayDevicesA` / `EnumDisplaySettingsExA`) is
external; one call of the outer retry iteration sees a list of adapter
records, each with its active flag, its monitor device-id strings and the
result of querying its current display settings. The 5-second deadline
with a 250 ms sleep per miss bounds the number of enumeration attempts;
that bound is the `budget` parameter. The matching logic (second
backslash-delimited segment of the ids, lowercased, nonempty) is
translated from the source.
-/

/-- A desktop placement: `dmPosition.x/.y`, `dmPelsWidth/Height`
(`display_edid_finder.cpp` lines 238-241). -/
structure DesktopRect where
  x : Int
  y : Int
  width : ℕ
  height : ℕ
deriving DecidableEq

/-- One adapter as seen by `EnumDisplayDevicesA`: its
`DISPLAY_DEVICE_ACTIVE` state flag, the `DeviceID`s of its monitors, and
what `EnumDisplaySettingsExA(adapter.DeviceName, ENUM_CURRENT_SETTINGS)`
returns for it (`none` when that call fails). -/
structure AdapterRecord where
  active : Bool
  monitorDeviceIds : List String
  currentSettings : Option DesktopRect
deriving DecidableEq

/-- The fields of `DisplayEdidInfo` that `PopulateDesktopCoordinates`
reads (`display_edid_finder.h`): the device instance id the model segment
is extracted from, and the identity fields. -/
structure DisplayEdidInfo where
  device_instance_id : String
  product_code : ℕ
  serial_number : ℕ

/-- The characters of a device id before its next backslash. -/
def takeUntilBackslash : List Char → List Char
  | [] => []
  | c :: cs => if c = '\\' then [] else c :: takeUntilBackslash cs

/-- Drop the characters of a device id up to and including its next
backslash; `none` when no backslash remains (`std::string::npos` in the
source). -/
def dropThroughBackslash : List Char → Option (List Char)
  | [] => none
  | c :: cs => if c = '\\' then some cs else dropThroughBackslash cs

/-- The model extraction of `display_edid_finder.cpp` lines 189-199 and
216-226: the substring strictly between the first and second backslash of
an id such as `DISPLAY\TCL03D4\7&26951BDF&0&UID268`, and the empty string
when either backslash is missing. -/
def extractModelSegment (s : String) : String :=
  match dropThroughBackslash s.data with
  | none => ""
  | some rest =>
    match dropThroughBackslash rest with
    | none => ""
    | some _ => String.mk (takeUntilBackslash rest)

/-- Per-character `tolower` over a model string
(`display_edid_finder.cpp` lines 229-232). -/
def lowerChars (l : List Char) : List Char := l.map Char.toLower

/-- The per-monitor match of `display_edid_finder.cpp` lines 212-234:
skip empty `DeviceID`s, extract both model segments, lowercase them, and
require the instance model to be nonempty and equal to the monitor
model. -/
def matchMonitor (instModel : String) (devId : String) : Bool :=
  if devId.data.isEmpty then false
  else
    let instLower := lowerChars instModel.data
    let monLower := lowerChars (extractModelSegment devId).data
    !instLower.isEmpty && (instLower == monLower)

/-- The inner monitor loop (`display_edid_finder.cpp` lines 211-245): the
first matching monitor of an adapter whose settings query succeeds yields
that adapter's placement; a matching monitor whose settings query fails
falls through and scanning continues. -/
def scanMonitors (instModel : String) (settings : Option DesktopRect) :
    List String → Option DesktopRect
  | [] => none
  | devId :: rest =>
    if matchMonitor instModel devId then
      match settings with
      | some r => some r
      | none => scanMonitors instModel settings rest
    else scanMonitors instModel settings rest

/-- The adapter loop of one enumeration attempt
(`display_edid_finder.cpp` lines 205-246): inactive adapters are skipped;
the first adapter with a matching monitor and a successful settings query
resolves the placement. -/
def attemptFind (instModel : String) : List AdapterRecord → Option DesktopRect
  | [] => none
  | a :: rest =>
    if a.active then
      match scanMonitors instModel a.currentSettings a.monitorDeviceIds with
      | some r => some r
      | none => attemptFind instModel rest
    else attemptFind instModel rest

/-- The bounded retry loop (`display_edid_finder.cpp` lines 202-251):
attempt `k` sees enumeration `enums k`; on a miss, sleep and retry until
the deadline allows no further attempt, then report failure. -/
def populateLoop (instModel : String) (enums : ℕ → List AdapterRecord) :
    ℕ → ℕ → Option DesktopRect
  | _, 0 => none
  | k, b + 1 =>
    match attemptFind instModel (enums k) with
    | some r => some r
    | none => populateLoop instModel enums (k + 1) b

/-- `DisplayEdidFinder::PopulateDesktopCoordinates` over an abstract OS
enumeration: extract the instance model from the identity's instance id
and run the retry loop with the number of attempts the 5-second window
allows (`budget`). A `some` result stands for the source returning `true`
with `info.desktop_*` filled in; `none` stands for returning `false`. -/
def PopulateDesktopCoordinates (info : DisplayEdidInfo)
    (enums : ℕ → List AdapterRecord) (budget : ℕ) : Option DesktopRect :=
  populateLoop (extractModelSegment info.device_instance_id) enums 0 budget

/-- Apply `ConsumeButtonNotifyPending` `n` times, keeping the state. -/
noncomputable def consumeSystemIter : ℕ → ProviderState → ProviderState
  | 0, s => s
  | n + 1, s => consumeSystemIter n (ConsumeButtonNotifyPending s).2

/-- Apply `ConsumeTriggerClickPending` `n` times, keeping the state. -/
noncomputable def consumeTriggerIter : ℕ → ProviderState → ProviderState
  | 0, s => s
  | n + 1, s => consumeTriggerIter n (ConsumeTriggerClickPending s).2

/-- Apply `ConsumeGripClickPending` `n` times, keeping the state. -/
noncomputable def consumeGripIter : ℕ → ProviderState → ProviderState
  | 0, s => s
  | n + 1, s => consumeGripIter n (ConsumeGripClickPending s).2

/-- Apply `ConsumeAppMenuClickPending` `n` times, keeping the state. -/
noncomputable def consumeAppMenuIter : ℕ → ProviderState → ProviderState
  | 0, s => s
  | n + 1, s => consumeAppMenuIter n (ConsumeAppMenuClickPending s).2

/-!
Concrete inputs used by the witness theorems.
-/

/-- A provider state with a non-trivial unit current quaternion. -/
noncomputable def unitQuatState : ProviderState :=
  { initProviderState with imu_q_w := 3 / 5, imu_q_x := 4 / 5 }

/-- A provider state that is asleep (`RAYNEO_NOTIFY_SLEEP` received). -/
noncomputable def sleepingState : ProviderState :=
  { initProviderState with sleeping := true }

/-- A valid sample whose tick equals a prior stored tick. -/
noncomputable def sampleSameTick : ImuSample := ⟨true, 5, ⟨1, 2, 3⟩, ⟨0, 0, 0⟩⟩

/-- A provider state with a stored last tick of 1000 ms. -/
noncomputable def stateTick1000 : ProviderState :=
  { initProviderState with last_imu_tick := 1000 }

/-- A valid sample 2000 ms after tick 1000, rotating about the x axis
fast enough that its pre-clamp angle `0.2 * 2 = 0.4` exceeds 0.35. -/
noncomputable def sampleBigAngle : ImuSample := ⟨true, 3000, ⟨1, 0, 0⟩, ⟨0, 0, 0⟩⟩

/-- A monitor instance id as documented in the source comment. -/
def sampleInstanceId : String := "DISPLAY\\TCL03D4\\7&26951BDF&0&UID268"

/-- The identity record for the sample instance id (product 980,
serial 17 after the 3D mode switch). -/
def sampleEdidInfo : DisplayEdidInfo := ⟨sampleInstanceId, 980, 17⟩

/-- The matching adapter: active, one monitor whose `DeviceID` carries
the same model segment in different case, with a placement. -/
def sampleAdapter : AdapterRecord :=
  ⟨true, ["MONITOR\\tcl03d4\\guid\\0001"], some ⟨2560, 0, 1920, 1080⟩⟩

/-- A synthetic OS enumeration that yields nothing on attempts 0-2 and
the matching adapter from attempt 3 on. -/
def sampleEnums : ℕ → List AdapterRecord := fun k => if k < 3 then [] else [sampleAdapter]

/-!
Helper lemmas about the quaternion integration step.
-/

theorem quatNormSq_quatMul (a b : Quat) :
    quatNormSq (quatMul a b) = quatNormSq a * quatNormSq b := by
  simp only [quatMul, quatNormSq]
  ring

theorem v3NormSq_nonneg (v : V3) : 0 ≤ v3NormSq v := by
  simp only [v3NormSq]
  have hx := mul_self_nonneg v.x
  have hy := mul_self_nonneg v.y
  have hz := mul_self_nonneg v.z
  linarith

theorem clampAngle_pos {a : ℝ} (h : 0 < clampAngle a) : 0 < a := by
  unfold clampAngle at h
  split_ifs at h with hc
  · linarith
  · exact h

theorem sqrt_pos_of_mul_pos {m dt : ℝ} (h : 0 < Real.sqrt m * dt) : 0 < Real.sqrt m := by
  by_contra hns
  push_neg at hns
  have h0 : Real.sqrt m = 0 := le_antisymm hns (Real.sqrt_nonneg m)
  rw [h0, zero_mul] at h
  exact lt_irrefl 0 h

theorem deltaQuat_normSq (w : V3) (angle : ℝ) (hm : 0 < v3NormSq w) :
    quatNormSq (deltaQuat w angle) = 1 := by
  simp only [deltaQuat]
  have h2 : (1 / Real.sqrt (v3NormSq w)) * (1 / Real.sqrt (v3NormSq w))
      = 1 / v3NormSq w := by
    rw [div_mul_div_comm, one_mul, Real.mul_self_sqrt hm.le]
  have h3 : v3NormSq w * (1 / v3NormSq w) = 1 := by
    field_simp
  have h4 : Real.sin (angle * 0.5) ^ 2 + Real.cos (angle * 0.5) ^ 2 = 1 :=
    Real.sin_sq_add_cos_sq _
  calc quatNormSq ⟨Real.cos (angle * 0.5),
        w.x * (1 / Real.sqrt (v3NormSq w)) * Real.sin (angle * 0.5),
        w.y * (1 / Real.sqrt (v3NormSq w)) * Real.sin (angle * 0.5),
        w.z * (1 / Real.sqrt (v3NormSq w)) * Real.sin (angle * 0.5)⟩
      = Real.cos (angle * 0.5) ^ 2 + Real.sin (angle * 0.5) ^ 2 *
          (v3NormSq w * ((1 / Real.sqrt (v3NormSq w)) * (1 / Real.sqrt (v3NormSq w)))) := by
        simp only [quatNormSq, v3NormSq]
        ring
    _ = Real.cos (angle * 0.5) ^ 2 + Real.sin (angle * 0.5) ^ 2 * (v3NormSq w * (1 / v3NormSq w)) := by
        rw [h2]
    _ = 1 := by rw [h3]; linarith [h4]

theorem normalizeQ_of_normSq_one {n : Quat} (h : quatNormSq n = 1) :
    quatNormSq (normalizeQ n) = 1 := by
  simp only [normalizeQ]
  rw [h, Real.sqrt_one, if_pos (by norm_num : (0 : ℝ) < 1)]
  simp only [div_one]
  exact h

theorem integrateQuat_normSq (q : Quat) (w : V3) (dt : ℝ) (h : quatNormSq q = 1) :
    quatNormSq (integrateQuat q w dt) = 1 := by
  simp only [integrateQuat]
  split_ifs with hdt hangle
  · have h1 : 0 < Real.sqrt (v3NormSq w) * dt := clampAngle_pos hangle
    have hm : 0 < v3NormSq w := Real.sqrt_pos.mp (sqrt_pos_of_mul_pos h1)
    apply normalizeQ_of_normSq_one
    rw [quatNormSq_quatMul, h, deltaQuat_normSq w _ hm, mul_one]
  · exact h
  · exact h

theorem stateQ_integrateSample (s : ProviderState) (smp : ImuSample) :
    stateQ (integrateSample s smp) =
      if smp.valid then integrateQuat (stateQ s) (scaledW s smp) (dtOf s.last_imu_tick smp.tick)
      else stateQ s := by
  unfold integrateSample
  split_ifs with h <;> rfl

theorem foldl_integrate_normSq (l : List ImuSample) :
    ∀ s : ProviderState, quatNormSq (stateQ s) = 1 →
      quatNormSq (stateQ (List.foldl integrateSample s l)) = 1 := by
  induction l with
  | nil => intro s h; simpa using h
  | cons a t ih =>
    intro s h
    rw [List.foldl_cons]
    apply ih
    rw [stateQ_integrateSample]
    split_ifs with hv
    · exact integrateQuat_normSq _ _ _ h
    · exact h

/-- Claim C1: starting from the identity quaternion, the running
orientation quaternion `imu_q_w_ .. imu_q_z_` has norm exactly 1 (hence
within `[1-eps, 1+eps]` for every nonnegative eps) after every
integration step of the event loop, for every sequence of IMU samples:
every prefix of the sample list leaves a unit quaternion. -/
theorem imu_quaternion_norm_unit (samples : List ImuSample) (n : ℕ) :
    Real.sqrt (quatNormSq (stateQ
      (List.foldl integrateSample initProviderState (samples.take n)))) = 1 := by
  have h0 : quatNormSq (stateQ initProviderState) = 1 := by
    simp [initProviderState, stateQ, quatNormSq]
  rw [foldl_integrate_normSq _ _ h0, Real.sqrt_one]

theorem dtOf_eq_zero {lastTick tick : ℕ} (h : lastTick = 0 ∨ tick ≤ lastTick) :
    dtOf lastTick tick = 0 := by
  unfold dtOf
  rw [if_neg]
  rintro ⟨hne, hlt⟩
  rcases h with h | h
  · exact hne h
  · omega

theorem integrateQuat_of_dt_nonpos (q : Quat) (w : V3) {dt : ℝ} (h : ¬ 0 < dt) :
    integrateQuat q w dt = q := by
  simp only [integrateQuat]
  rw [if_neg h]

theorem integrateQuat_of_magSq_zero (q : Quat) {w : V3} (dt : ℝ) (h : v3NormSq w = 0) :
    integrateQuat q w dt = q := by
  have hangle0 : clampAngle (Real.sqrt (v3NormSq w) * dt) = 0 := by
    rw [h, Real.sqrt_zero, zero_mul]
    unfold clampAngle
    norm_num
  simp [integrateQuat, hangle0]

/-- Claim C2: a valid sample with no prior tick, an equal-or-earlier tick,
or a zero scaled angular-velocity magnitude leaves the orientation
quaternion unchanged while still storing its tick as the new last tick;
and on every sample the axis magnitude divided by in the delta-quaternion
construction is strictly positive whenever the code reaches that
division (the clamped angle is positive). -/
theorem imu_skip_sample (s : ProviderState) (smp : ImuSample) (hv : smp.valid = true) :
    ((s.last_imu_tick = 0 ∨ smp.tick ≤ s.last_imu_tick ∨ v3NormSq (scaledW s smp) = 0) →
      stateQ (integrateSample s smp) = stateQ s) ∧
    (integrateSample s smp).last_imu_tick = smp.tick ∧
    (0 < clampAngle (preClampAngle s smp) → 0 < Real.sqrt (v3NormSq (scaledW s smp))) := by
  refine ⟨?_, ?_, ?_⟩
  · intro hskip
    rw [stateQ_integrateSample, if_pos hv]
    rcases hskip with h | h | h
    · rw [dtOf_eq_zero (Or.inl h)]
      exact integrateQuat_of_dt_nonpos _ _ (by norm_num)
    · rw [dtOf_eq_zero (Or.inr h)]
      exact integrateQuat_of_dt_nonpos _ _ (by norm_num)
    · exact integrateQuat_of_magSq_zero _ _ h
  · simp only [integrateSample]
    rw [if_pos hv]
  · intro hang
    have h1 := clampAngle_pos hang
    unfold preClampAngle at h1
    exact sqrt_pos_of_mul_pos h1

/-- Witness for C2 at a concrete state and sample: the very first sample
(no prior tick) with a nonzero gyro reading keeps the identity quaternion
and stores tick 5. -/
theorem imu_skip_sample_witness :
    sampleSameTick.valid = true ∧
    initProviderState.last_imu_tick = 0 ∧
    stateQ (integrateSample initProviderState sampleSameTick) = stateQ initProviderState ∧
    (integrateSample initProviderState sampleSameTick).last_imu_tick = 5 :=
  ⟨rfl, rfl,
   (imu_skip_sample initProviderState sampleSameTick rfl).1 (Or.inl rfl),
   (imu_skip_sample initProviderState sampleSameTick rfl).2.1⟩

/-- Claim C3: `Recenter()` followed immediately by `GetImuOrientation()`
yields the identity quaternion exactly (hence within eps), for any state
whose current orientation quaternion is unit norm - the conjugated anchor
times the freshly snapshotted current quaternion is the squared norm in
the scalar slot and zero elsewhere. -/
theorem recenter_then_identity (s : ProviderState) (h : quatNormSq (stateQ s) = 1) :
    GetImuOrientation (Recenter s) = ⟨1, 0, 0, 0⟩ := by
  simp only [quatNormSq, stateQ] at h
  simp only [GetImuOrientation, Recenter, stateAnchor, stateQ, quatConj, quatMul,
    Quat.mk.injEq]
  refine ⟨?_, by ring, by ring, by ring⟩
  linear_combination h

/-- Witness for C3 at the concrete unit state `(3/5, 4/5, 0, 0)`. -/
theorem recenter_then_identity_witness :
    quatNormSq (stateQ unitQuatState) = 1 ∧
    GetImuOrientation (Recenter unitQuatState) = ⟨1, 0, 0, 0⟩ := by
  have h : quatNormSq (stateQ unitQuatState) = 1 := by
    simp only [unitQuatState, initProviderState, stateQ, quatNormSq]
    norm_num
  exact ⟨h, recenter_then_identity unitQuatState h⟩

theorem consumeSystemIter_pending (n : ℕ) (s : ProviderState) :
    (consumeSystemIter n s).button_system_click_pending =
      (s.button_system_click_pending && decide (n = 0)) := by
  induction n generalizing s with
  | zero => simp [consumeSystemIter]
  | succ k ih =>
    rw [consumeSystemIter, ih]
    simp [ConsumeButtonNotifyPending]

theorem consumeTriggerIter_pending (n : ℕ) (s : ProviderState) :
    (consumeTriggerIter n s).button_trigger_click_pending =
      (s.button_trigger_click_pending && decide (n = 0)) := by
  induction n generalizing s with
  | zero => simp [consumeTriggerIter]
  | succ k ih =>
    rw [consumeTriggerIter, ih]
    simp [ConsumeTriggerClickPending]

theorem consumeGripIter_pending (n : ℕ) (s : ProviderState) :
    (consumeGripIter n s).button_grip_click_pending =
      (s.button_grip_click_pending && decide (n = 0)) := by
  induction n generalizing s with
  | zero => simp [consumeGripIter]
  | succ k ih =>
    rw [consumeGripIter, ih]
    simp [ConsumeGripClickPending]

theorem consumeAppMenuIter_pending (n : ℕ) (s : ProviderState) :
    (consumeAppMenuIter n s).button_appmenu_click_pending =
      (s.button_appmenu_click_pending && decide (n = 0)) := by
  induction n generalizing s with
  | zero => simp [consumeAppMenuIter]
  | succ k ih =>
    rw [consumeAppMenuIter, ih]
    simp [ConsumeAppMenuClickPending]

/-- Claim C7: for each of the four buttons, after a notification sets the
pending flag, the consume call returns `true` exactly on the first read
(`n = 0` prior consumes) and `false` on every later read until the next
notification: the read clears the flag. -/
theorem consume_pending_exactly_once (s : ProviderState) (n : ℕ) :
    (ConsumeButtonNotifyPending (consumeSystemIter n (notifySystemButton s))).1
      = decide (n = 0) ∧
    (ConsumeTriggerClickPending (consumeTriggerIter n (notifyVolumeUp s))).1
      = decide (n = 0) ∧
    (ConsumeGripClickPending (consumeGripIter n (notifyVolumeDown s))).1
      = decide (n = 0) ∧
    (ConsumeAppMenuClickPending (consumeAppMenuIter n (notifyBrightness s))).1
      = decide (n = 0) := by
  refine ⟨?_, ?_, ?_, ?_⟩
  · show (consumeSystemIter n (notifySystemButton s)).button_system_click_pending = _
    rw [consumeSystemIter_pending]
    simp [notifySystemButton]
  · show (consumeTriggerIter n (notifyVolumeUp s)).button_trigger_click_pending = _
    rw [consumeTriggerIter_pending]
    simp [notifyVolumeUp]
  · show (consumeGripIter n (notifyVolumeDown s)).button_grip_click_pending = _
    rw [consumeGripIter_pending]
    simp [notifyVolumeDown]
  · show (consumeAppMenuIter n (notifyBrightness s)).button_appmenu_click_pending = _
    rw [consumeAppMenuIter_pending]
    simp [notifyBrightness]

/-- Claim C10: `Recenter` copies the current quaternion into the anchor
and zeroes `velocity_x`, `velocity_z`, `position_x`, `position_z`, while
leaving the current quaternion, the last IMU tick, the Y position and
velocity, the sensitivity scale, the sleep flag and all four button
pending flags unchanged. -/
theorem recenter_modifies_only_anchor_and_xz (s : ProviderState) :
    (Recenter s).recenter_q_w = s.imu_q_w ∧
    (Recenter s).recenter_q_x = s.imu_q_x ∧
    (Recenter s).recenter_q_y = s.imu_q_y ∧
    (Recenter s).recenter_q_z = s.imu_q_z ∧
    (Recenter s).velocity_x = 0 ∧
    (Recenter s).velocity_z = 0 ∧
    (Recenter s).position_x = 0 ∧
    (Recenter s).position_z = 0 ∧
    (Recenter s).imu_q_w = s.imu_q_w ∧
    (Recenter s).imu_q_x = s.imu_q_x ∧
    (Recenter s).imu_q_y = s.imu_q_y ∧
    (Recenter s).imu_q_z = s.imu_q_z ∧
    (Recenter s).last_imu_tick = s.last_imu_tick ∧
    (Recenter s).velocity_y = s.velocity_y ∧
    (Recenter s).position_y = s.position_y ∧
    (Recenter s).gyro_scale = s.gyro_scale ∧
    (Recenter s).sleeping = s.sleeping ∧
    (Recenter s).button_system_click_pending = s.button_system_click_pending ∧
    (Recenter s).button_trigger_click_pending = s.button_trigger_click_pending ∧
    (Recenter s).button_grip_click_pending = s.button_grip_click_pending ∧
    (Recenter s).button_appmenu_click_pending = s.button_appmenu_click_pending :=
  ⟨rfl, rfl, rfl, rfl, rfl, rfl, rfl, rfl, rfl, rfl, rfl, rfl, rfl, rfl, rfl, rfl,
   rfl, rfl, rfl, rfl, rfl⟩

theorem integrateQuat_hot (q : Quat) (w : V3) (dt : ℝ) (hdt : 0 < dt)
    (hang : 0 < clampAngle (Real.sqrt (v3NormSq w) * dt)) :
    integrateQuat q w dt
      = normalizeQ (quatMul q (deltaQuat w (clampAngle (Real.sqrt (v3NormSq w) * dt)))) := by
  simp only [integrateQuat]
  rw [if_pos hdt, if_pos hang]

theorem scaleSample_tick (c : ℝ) (smp : ImuSample) : (scaleSample c smp).tick = smp.tick := rfl

theorem scaleSample_valid (c : ℝ) (smp : ImuSample) : (scaleSample c smp).valid = smp.valid := rfl

theorem effW_scaleSample (smp : ImuSample) {c : ℝ} (hc : c ≠ 0) :
    effW (scaleSample c smp)
      = ⟨c * (effW smp).x, c * (effW smp).y, c * (effW smp).z⟩ := by
  have hx : (scaleSample c smp).gyroRad.x = c * smp.gyroRad.x := rfl
  have hy : (scaleSample c smp).gyroRad.y = c * smp.gyroRad.y := rfl
  have hz : (scaleSample c smp).gyroRad.z = c * smp.gyroRad.z := rfl
  have hdx : (scaleSample c smp).gyroDps.x = c * smp.gyroDps.x := rfl
  have hdy : (scaleSample c smp).gyroDps.y = c * smp.gyroDps.y := rfl
  have hdz : (scaleSample c smp).gyroDps.z = c * smp.gyroDps.z := rfl
  unfold effW
  rw [hx, hy, hz, hdx, hdy, hdz]
  by_cases h : smp.gyroRad.x = 0 ∧ smp.gyroRad.y = 0 ∧ smp.gyroRad.z = 0
  · rw [if_pos (by simp [h.1, h.2.1, h.2.2]), if_pos h]
    simp only [V3.mk.injEq]
    refine ⟨by ring, by ring, by ring⟩
  · rw [if_neg (by simp only [mul_eq_zero, hc, false_or]; exact h), if_neg h]
    rfl

theorem scaledW_scaleSample (s : ProviderState) (smp : ImuSample) {c : ℝ} (hc : c ≠ 0) :
    scaledW s (scaleSample c smp)
      = ⟨c * (scaledW s smp).x, c * (scaledW s smp).y, c * (scaledW s smp).z⟩ := by
  unfold scaledW
  rw [effW_scaleSample smp hc]
  simp only [V3.mk.injEq]
  refine ⟨by ring, by ring, by ring⟩

theorem v3NormSq_smul (c : ℝ) (v : V3) :
    v3NormSq ⟨c * v.x, c * v.y, c * v.z⟩ = c ^ 2 * v3NormSq v := by
  simp only [v3NormSq]
  ring

theorem deltaQuat_scale (w : V3) {c : ℝ} (angle : ℝ) (hc : 0 < c) (hm : 0 < v3NormSq w) :
    deltaQuat ⟨c * w.x, c * w.y, c * w.z⟩ angle = deltaQuat w angle := by
  have hs : Real.sqrt (v3NormSq w) ≠ 0 := (Real.sqrt_pos.mpr hm).ne'
  simp only [deltaQuat]
  rw [v3NormSq_smul, Real.sqrt_mul (sq_nonneg c), Real.sqrt_sq hc.le]
  simp only [Quat.mk.injEq, true_and]
  refine ⟨?_, ?_, ?_⟩ <;> · field_simp; ring

theorem integrateQuat_clamp_scale (q : Quat) (w : V3) (dt c : ℝ)
    (hdt : 0 < dt) (hc : 0 < c)
    (hbig : 0.35 < Real.sqrt (v3NormSq w) * dt)
    (hceq : c * (Real.sqrt (v3NormSq w) * dt) = 0.35) :
    integrateQuat q ⟨c * w.x, c * w.y, c * w.z⟩ dt = integrateQuat q w dt := by
  have hs : 0 < Real.sqrt (v3NormSq w) :=
    sqrt_pos_of_mul_pos (lt_trans (by norm_num) hbig)
  have hm : 0 < v3NormSq w := Real.sqrt_pos.mp hs
  have hsc : Real.sqrt (v3NormSq (⟨c * w.x, c * w.y, c * w.z⟩ : V3))
      = c * Real.sqrt (v3NormSq w) := by
    rw [v3NormSq_smul, Real.sqrt_mul (sq_nonneg c), Real.sqrt_sq hc.le]
  have hangle1 : clampAngle (Real.sqrt (v3NormSq w) * dt) = 0.35 := by
    unfold clampAngle
    rw [if_pos hbig]
  have hangle2 : clampAngle
      (Real.sqrt (v3NormSq (⟨c * w.x, c * w.y, c * w.z⟩ : V3)) * dt) = 0.35 := by
    rw [hsc, mul_assoc, hceq]
    unfold clampAngle
    rw [if_neg (by norm_num)]
  rw [integrateQuat_hot q _ dt hdt (by rw [hangle2]; norm_num),
      integrateQuat_hot q w dt hdt (by rw [hangle1]; norm_num),
      hangle1, hangle2, deltaQuat_scale w 0.35 hc hm]

/-- Claim C4: for a valid sample with positive `dt` whose pre-clamp angle
`|scaled angular velocity| * dt` exceeds the 0.35 rad per-step maximum,
integration produces exactly the same quaternion (and stored tick) as the
comparison sample with the same axis direction whose pre-clamp angle is
exactly 0.35: scaling the gyro reading by `0.35 / angle` changes
nothing. -/
theorem clamp_oversized_sample (s : ProviderState) (smp : ImuSample)
    (hv : smp.valid = true)
    (hdt : 0 < dtOf s.last_imu_tick smp.tick)
    (hbig : 0.35 < preClampAngle s smp) :
    preClampAngle s (scaleSample (0.35 / preClampAngle s smp) smp) = 0.35 ∧
    integrateSample s (scaleSample (0.35 / preClampAngle s smp) smp)
      = integrateSample s smp := by
  have hA : 0 < preClampAngle s smp := lt_trans (by norm_num) hbig
  have hc : 0 < 0.35 / preClampAngle s smp := by positivity
  have hceq : (0.35 / preClampAngle s smp) *
      (Real.sqrt (v3NormSq (scaledW s smp)) * dtOf s.last_imu_tick smp.tick) = 0.35 := by
    have : Real.sqrt (v3NormSq (scaledW s smp)) * dtOf s.last_imu_tick smp.tick
        = preClampAngle s smp := rfl
    rw [this, div_mul_cancel₀ _ hA.ne']
  have hW := scaledW_scaleSample s smp hc.ne'
  have hsc : Real.sqrt (v3NormSq (scaledW s (scaleSample (0.35 / preClampAngle s smp) smp)))
      = (0.35 / preClampAngle s smp) * Real.sqrt (v3NormSq (scaledW s smp)) := by
    rw [hW, v3NormSq_smul, Real.sqrt_mul (sq_nonneg _), Real.sqrt_sq hc.le]
  constructor
  · show Real.sqrt (v3NormSq (scaledW s (scaleSample (0.35 / preClampAngle s smp) smp))) *
        dtOf s.last_imu_tick (scaleSample (0.35 / preClampAngle s smp) smp).tick = 0.35
    rw [scaleSample_tick, hsc, mul_assoc]
    exact hceq
  · have hv2 : (scaleSample (0.35 / preClampAngle s smp) smp).valid = true := hv
    simp only [integrateSample]
    rw [if_pos hv2, if_pos hv, scaleSample_tick, hW,
        integrateQuat_clamp_scale (stateQ s) (scaledW s smp) _ _ hdt hc hbig hceq]

/-- Witness for C4: at stored tick 1000, a valid sample at tick 3000
rotating at 1 rad/s about x (scaled by 0.2, over `dt = 2` s) has
pre-clamp angle 0.4 > 0.35, and integrating it equals integrating its
rescaled 0.35-angle counterpart. -/
theorem clamp_oversized_sample_witness :
    sampleBigAngle.valid = true ∧
    0 < dtOf stateTick1000.last_imu_tick sampleBigAngle.tick ∧
    0.35 < preClampAngle stateTick1000 sampleBigAngle ∧
    (preClampAngle stateTick1000
        (scaleSample (0.35 / preClampAngle stateTick1000 sampleBigAngle) sampleBigAngle)
      = 0.35 ∧
     integrateSample stateTick1000
        (scaleSample (0.35 / preClampAngle stateTick1000 sampleBigAngle) sampleBigAngle)
      = integrateSample stateTick1000 sampleBigAngle) := by
  have hlt : stateTick1000.last_imu_tick = 1000 := rfl
  have htk : sampleBigAngle.tick = 3000 := rfl
  have hdtv : dtOf stateTick1000.last_imu_tick sampleBigAngle.tick = 2 := by
    unfold dtOf
    rw [hlt, htk, if_pos (by norm_num)]
    norm_num
  have heff : effW sampleBigAngle = ⟨1, 0, 0⟩ := by
    unfold effW
    rw [if_neg]
    · rfl
    · intro hcon
      have h1 : (1 : ℝ) = 0 := hcon.1
      norm_num at h1
  have hWv : scaledW stateTick1000 sampleBigAngle = ⟨0.2, 0, 0⟩ := by
    show V3.mk ((effW sampleBigAngle).x * stateTick1000.gyro_scale)
        ((effW sampleBigAngle).y * stateTick1000.gyro_scale)
        ((effW sampleBigAngle).z * stateTick1000.gyro_scale) = ⟨0.2, 0, 0⟩
    rw [heff]
    have hg : stateTick1000.gyro_scale = 0.2 := rfl
    rw [hg]
    simp only [V3.mk.injEq]
    norm_num
  have hpre : preClampAngle stateTick1000 sampleBigAngle = 0.4 := by
    unfold preClampAngle
    rw [hdtv, hWv]
    have h04 : v3NormSq ⟨0.2, 0, 0⟩ = (0.2 : ℝ) ^ 2 := by
      simp only [v3NormSq]
      norm_num
    rw [h04, Real.sqrt_sq (by norm_num : (0 : ℝ) ≤ 0.2)]
    norm_num
  have hdtpos : 0 < dtOf stateTick1000.last_imu_tick sampleBigAngle.tick := by
    rw [hdtv]; norm_num
  have hbig : 0.35 < preClampAngle stateTick1000 sampleBigAngle := by
    rw [hpre]; norm_num
  exact ⟨rfl, hdtpos, hbig,
    clamp_oversized_sample stateTick1000 sampleBigAngle rfl hdtpos hbig⟩

/-- Claim C8 (code bug evidence): evaluating `GetPose` on a sleeping
provider state. The pose is marked invalid as the claim says, but the
reported tracking result is `Running_OK`, not `Running_OutOfRange`: the
unconditional `pose.result = TrackingResult_Running_OK` at
`hmd_device_driver.cpp` line 300 overwrites the out-of-range value set
under the sleep flag at line 289, contradicting the comment at lines
286-288. -/
theorem getPose_sleeping_tracking_result :
    (GetPose sleepingState).poseIsValid = false ∧
    (GetPose sleepingState).result = ETrackingResult.runningOK :=
  ⟨rfl, rfl⟩

set_option maxRecDepth 4000 in
/-- Claim C5 counterexample: with the hold duration N = 30, the claim
says the button reads as not pressed from the 30th `MyRunFrame` call
onward; but the source reports pressed before decrementing, so the 30th
call (index 29) still reports all three simple buttons as pressed. -/
theorem simple_button_still_pressed_at_call_30 :
    (simpleOutputAt 29).sysPressed = true ∧
    (simpleOutputAt 29).trigPressed = true ∧
    (simpleOutputAt 29).gripPressed = true := by
  decide

theorem delayState_simple_frames (s : HmdState) :
    (delayState s).button_system_frames_remaining = s.button_system_frames_remaining ∧
    (delayState s).button_trigger_frames_remaining = s.button_trigger_frames_remaining ∧
    (delayState s).button_grip_frames_remaining = s.button_grip_frames_remaining := by
  simp only [delayState]
  split_ifs <;> exact ⟨rfl, rfl, rfl⟩

theorem runFrame_quiet_simple (s : HmdState) :
    (myRunFrame s quietInput).1.button_system_frames_remaining
        = s.button_system_frames_remaining - 1 ∧
    (myRunFrame s quietInput).1.button_trigger_frames_remaining
        = s.button_trigger_frames_remaining - 1 ∧
    (myRunFrame s quietInput).1.button_grip_frames_remaining
        = s.button_grip_frames_remaining - 1 ∧
    (myRunFrame s quietInput).2.sysPressed
        = decide (0 < s.button_system_frames_remaining) ∧
    (myRunFrame s quietInput).2.trigPressed
        = decide (0 < s.button_trigger_frames_remaining) ∧
    (myRunFrame s quietInput).2.gripPressed
        = decide (0 < s.button_grip_frames_remaining) := by
  have hc : consumeState s quietInput = s := rfl
  simp only [myRunFrame, hc, delayState]
  split_ifs <;> exact ⟨rfl, rfl, rfl, rfl, rfl, rfl⟩

theorem simpleStateAt_frames (n : ℕ) :
    (simpleStateAt (n + 1)).button_system_frames_remaining = 29 - n ∧
    (simpleStateAt (n + 1)).button_trigger_frames_remaining = 29 - n ∧
    (simpleStateAt (n + 1)).button_grip_frames_remaining = 29 - n := by
  induction n with
  | zero => exact ⟨rfl, rfl, rfl⟩
  | succ k ih =>
    have hs : simpleStateAt (k + 2) = (myRunFrame (simpleStateAt (k + 1)) quietInput).1 := by
      show (myRunFrame (simpleStateAt (k + 1)) (simpleScenarioInput (k + 1))).1 = _
      simp [simpleScenarioInput]
    obtain ⟨h1, h2, h3⟩ := ih
    obtain ⟨g1, g2, g3, _, _, _⟩ := runFrame_quiet_simple (simpleStateAt (k + 1))
    rw [hs]
    refine ⟨?_, ?_, ?_⟩
    · rw [g1, h1]; omega
    · rw [g2, h2]; omega
    · rw [g3, h3]; omega

/-- Claim C5 amended: a single pending notification for a simple button
(system, trigger, grip) followed by per-frame `MyRunFrame` calls reports
the button as pressed for the first N calls and not pressed from call
N+1 onward, with N = 30 the configured hold duration (the source reports
the counter before decrementing it, so the hold spans 30 reporting
calls, not 29). -/
theorem simple_button_hold_thirty_calls (n : ℕ) :
    (simpleOutputAt n).sysPressed = decide (n < 30) ∧
    (simpleOutputAt n).trigPressed = decide (n < 30) ∧
    (simpleOutputAt n).gripPressed = decide (n < 30) := by
  cases n with
  | zero => exact ⟨rfl, rfl, rfl⟩
  | succ k =>
    have hs : simpleOutputAt (k + 1) = (myRunFrame (simpleStateAt (k + 1)) quietInput).2 := by
      show (myRunFrame (simpleStateAt (k + 1)) (simpleScenarioInput (k + 1))).2 = _
      simp [simpleScenarioInput]
    obtain ⟨h1, h2, h3⟩ := simpleStateAt_frames k
    obtain ⟨_, _, _, o1, o2, o3⟩ := runFrame_quiet_simple (simpleStateAt (k + 1))
    rw [hs]
    refine ⟨?_, ?_, ?_⟩
    · rw [o1, h1]
      simp only [decide_eq_decide]
      omega
    · rw [o2, h2]
      simp only [decide_eq_decide]
      omega
    · rw [o3, h3]
      simp only [decide_eq_decide]
      omega

theorem runFrames_append (l1 : List FrameInput) : ∀ (s : HmdState) (l2 : List FrameInput),
    runFrames s (l1 ++ l2)
      = ((runFrames (runFrames s l1).1 l2).1,
         (runFrames s l1).2 ++ (runFrames (runFrames s l1).1 l2).2) := by
  induction l1 with
  | nil => intro s l2; simp [runFrames]
  | cons a t ih =>
    intro s l2
    simp only [List.cons_append, runFrames]
    simp only [List.append_eq]
    rw [ih]

theorem countP_replicate_false {α : Type} (p : α → Bool) (a : α) (h : p a = false) :
    ∀ n : ℕ, List.countP p (List.replicate n a) = 0 := by
  intro n
  induction n with
  | zero => rfl
  | succ k ih => simp [List.replicate_succ, List.countP_cons, h, ih]

theorem runFrames_nil (s : HmdState) : runFrames s [] = (s, []) := rfl

theorem runFrames_cons (s : HmdState) (inp : FrameInput) (rest : List FrameInput) :
    runFrames s (inp :: rest)
      = ((runFrames (myRunFrame s inp).1 rest).1,
         (myRunFrame s inp).2 :: (runFrames (myRunFrame s inp).1 rest).2) := rfl

theorem first_click_step (t : ℕ) :
    myRunFrame initHmdState (appClick t) = (waitingState 199 t, quietOutput) := rfl

theorem quiet_step_waiting (d t : ℕ) (hd : 2 ≤ d) :
    myRunFrame (waitingState d t) quietInput = (waitingState (d - 1) t, quietOutput) := by
  have h0 : 0 < d := by omega
  have h1 : ¬(d - 1 = 0) := by omega
  have hc : consumeState (waitingState d t) quietInput = waitingState d t := rfl
  simp only [myRunFrame]
  rw [hc]
  simp only [delayState, recenterFired, singleClickFired, updateState, waitingState,
    quietInput, quietOutput]
  simp [h0, h1]

theorem runFrames_quiet_waiting (n : ℕ) : ∀ d t, n < d →
    runFrames (waitingState d t) (List.replicate n quietInput)
      = (waitingState (d - n) t, List.replicate n quietOutput) := by
  induction n with
  | zero => intro d t _; simp [runFrames]
  | succ k ih =>
    intro d t h
    rw [List.replicate_succ]
    simp only [runFrames]
    rw [quiet_step_waiting d t (by omega)]
    dsimp only
    rw [ih (d - 1) t (by omega)]
    rw [show d - 1 - k = d - (k + 1) from by omega, List.replicate_succ]

theorem click_while_waiting (d t0 t1 : ℕ) (ht : t1 - t0 < 1000) :
    myRunFrame (waitingState d t0) (appClick t1)
      = (idleState 0 t0, ⟨false, false, false, false, true, false⟩) := by
  have hcond : (waitingState d t0).brightness_waiting_for_double = true ∧
      (appClick t1).nowMs - (waitingState d t0).last_brightness_click_time < 1000 :=
    ⟨rfl, ht⟩
  have hc : consumeState (waitingState d t0) (appClick t1) = idleState 0 t0 := by
    simp only [consumeState]
    rw [if_pos (show (appClick t1).appmenuPending = true from rfl), if_pos hcond]
    rfl
  have hr : recenterFired (waitingState d t0) (appClick t1) = true := by
    simp [recenterFired, waitingState, appClick, ht]
  simp only [myRunFrame]
  rw [hc, hr]
  have hd2 : delayState (idleState 0 t0) = idleState 0 t0 := rfl
  rw [hd2]
  rfl

theorem expire_step (t : ℕ) :
    myRunFrame (waitingState 1 t) quietInput
      = (idleState 29 t, ⟨false, false, false, true, false, true⟩) := rfl

theorem quiet_step_idle (a t : ℕ) :
    myRunFrame (idleState a t) quietInput
      = (idleState (a - 1) t, ⟨false, false, false, decide (0 < a), false, false⟩) := rfl

theorem runFrames_quiet_idle (n : ℕ) : ∀ a t,
    (runFrames (idleState a t) (List.replicate n quietInput)).1 = idleState (a - n) t ∧
    recenterCount (runFrames (idleState a t) (List.replicate n quietInput)).2 = 0 ∧
    singleClickCount (runFrames (idleState a t) (List.replicate n quietInput)).2 = 0 := by
  induction n with
  | zero => intro a t; exact ⟨rfl, rfl, rfl⟩
  | succ k ih =>
    intro a t
    rw [List.replicate_succ]
    simp only [runFrames]
    rw [quiet_step_idle a t]
    dsimp only
    obtain ⟨ih1, ih2, ih3⟩ := ih (a - 1) t
    refine ⟨?_, ?_, ?_⟩
    · rw [ih1, show a - 1 - k = a - (k + 1) from by omega]
    · simp [recenterCount, List.countP_cons] at ih2 ⊢
      exact ih2
    · simp [singleClickCount, List.countP_cons] at ih3 ⊢
      exact ih3

/-- Claim C6: two app-menu (brightness) clicks consumed within the
arbitration window (the second click while the wait flag is alive - at
most 198 intervening frames - and within 1000 ms wall clock) cause
exactly one `Recenter()` invocation and zero deferred single-click
holds; a single app-menu click with no second click (`m >= 199` quiet
frames) causes exactly one deferred single-click hold and zero
recenters, and the hold is emitted only after the 200-frame wait
expires: with only `k <= 198` quiet frames after the click, no hold has
been emitted yet. -/
theorem appmenu_double_vs_single_click (n m k t0 t1 : ℕ)
    (hn : n ≤ 198) (ht : t1 - t0 < 1000) (hm : 199 ≤ m) (hk : k ≤ 198) :
    recenterCount (runFrames initHmdState (doubleClickInputs n t0 t1)).2 = 1 ∧
    singleClickCount (runFrames initHmdState (doubleClickInputs n t0 t1)).2 = 0 ∧
    recenterCount (runFrames initHmdState (singleClickInputs m t0)).2 = 0 ∧
    singleClickCount (runFrames initHmdState (singleClickInputs m t0)).2 = 1 ∧
    singleClickCount (runFrames initHmdState (singleClickInputs k t0)).2 = 0 := by
  have hq1 : quietOutput.recentered = false := rfl
  have hq2 : quietOutput.deferredSingleClick = false := rfl
  have hrec0 : ∀ j : ℕ, List.countP (fun o => o.recentered) (List.replicate j quietOutput) = 0 :=
    countP_replicate_false _ _ hq1
  have hsng0 : ∀ j : ℕ,
      List.countP (fun o => o.deferredSingleClick) (List.replicate j quietOutput) = 0 :=
    countP_replicate_false _ _ hq2
  -- the double-click run
  have hdbl : (runFrames initHmdState (doubleClickInputs n t0 t1)).2
      = quietOutput :: (List.replicate n quietOutput
          ++ [⟨false, false, false, false, true, false⟩]) := by
    show (runFrames initHmdState
        (appClick t0 :: (List.replicate n quietInput ++ [appClick t1]))).2 = _
    rw [runFrames_cons, first_click_step t0]
    dsimp only
    rw [runFrames_append, runFrames_quiet_waiting n 199 t0 (by omega)]
    dsimp only
    rw [runFrames_cons, click_while_waiting (199 - n) t0 t1 ht]
    dsimp only
    rw [runFrames_nil]
  -- the expired single-click run
  have hrep : List.replicate m quietInput
      = List.replicate 198 quietInput
          ++ (quietInput :: List.replicate (m - 199) quietInput) := by
    rw [← List.replicate_succ, ← List.replicate_add]
    congr 1
    omega
  have hsout : (runFrames initHmdState (singleClickInputs m t0)).2
      = quietOutput :: (List.replicate 198 quietOutput
          ++ (⟨false, false, false, true, false, true⟩
            :: (runFrames (idleState 29 t0) (List.replicate (m - 199) quietInput)).2)) := by
    show (runFrames initHmdState (appClick t0 :: List.replicate m quietInput)).2 = _
    rw [runFrames_cons, first_click_step t0]
    dsimp only
    rw [hrep, runFrames_append, runFrames_quiet_waiting 198 199 t0 (by omega)]
    dsimp only
    rw [runFrames_cons, show (199 : ℕ) - 198 = 1 from rfl, expire_step t0]
  obtain ⟨_, hri, hsi⟩ := runFrames_quiet_idle (m - 199) 29 t0
  simp only [recenterCount, singleClickCount] at hri hsi ⊢
  -- the not-yet-expired single-click run
  have hwout : (runFrames initHmdState (singleClickInputs k t0)).2
      = quietOutput :: List.replicate k quietOutput := by
    show (runFrames initHmdState (appClick t0 :: List.replicate k quietInput)).2 = _
    rw [runFrames_cons, first_click_step t0]
    dsimp only
    rw [runFrames_quiet_waiting k 199 t0 (by omega)]
  rw [hdbl, hsout, hwout]
  simp only [List.countP_cons, List.countP_append, List.countP_nil, hrec0, hsng0,
    hri, hsi, hq1, hq2]
  norm_num

/-- Witness for C6 at concrete parameters: 10 quiet frames between two
clicks 500 ms apart, a lone click followed by 250 quiet frames, and a
lone click followed by only 60 quiet frames. -/
theorem appmenu_double_vs_single_click_witness :
    (10 ≤ 198 ∧ 500 - 0 < 1000 ∧ 199 ≤ 250 ∧ 60 ≤ 198) ∧
    (recenterCount (runFrames initHmdState (doubleClickInputs 10 0 500)).2 = 1 ∧
     singleClickCount (runFrames initHmdState (doubleClickInputs 10 0 500)).2 = 0 ∧
     recenterCount (runFrames initHmdState (singleClickInputs 250 0)).2 = 0 ∧
     singleClickCount (runFrames initHmdState (singleClickInputs 250 0)).2 = 1 ∧
     singleClickCount (runFrames initHmdState (singleClickInputs 60 0)).2 = 0) :=
  ⟨⟨by norm_num, by norm_num, by norm_num, by norm_num⟩,
   appmenu_double_vs_single_click 10 250 60 0 500
     (by norm_num) (by norm_num) (by norm_num) (by norm_num)⟩

theorem populateLoop_spec (instModel : String) (enums : ℕ → List AdapterRecord)
    (N : ℕ) (r : DesktopRect)
    (hb : ∀ j, j < N → attemptFind instModel (enums j) = none)
    (ha : attemptFind instModel (enums N) = some r) :
    ∀ b j, j ≤ N → populateLoop instModel enums j b = if N < j + b then some r else none := by
  intro b
  induction b with
  | zero =>
    intro j hj
    rw [populateLoop, if_neg (by omega)]
  | succ c ih =>
    intro j hj
    rw [populateLoop]
    rcases Nat.lt_or_ge j N with hlt | hge
    · rw [hb j hlt]
      dsimp only
      rw [ih (j + 1) hlt]
      rw [show j + 1 + c = j + (c + 1) from by omega]
    · have hj2 : j = N := le_antisymm hj hge
      subst hj2
      rw [ha]
      dsimp only
      rw [if_pos (by omega)]

/-- Claim C9: `PopulateDesktopCoordinates` retries enumeration and
matching across the bounded attempt window and fails exactly when no
attempt inside the window matches: against an enumeration whose first
match (placement `r`) appears at attempt `N`, it returns `r` when `N` is
within the retry budget and `NotFound` (`none`) once `N` is at or beyond
the budget - failure holds if and only if the budget is exhausted
first. -/
theorem populate_desktop_retry (info : DisplayEdidInfo) (enums : ℕ → List AdapterRecord)
    (budget N : ℕ) (r : DesktopRect)
    (hbefore : ∀ j, j < N →
      attemptFind (extractModelSegment info.device_instance_id) (enums j) = none)
    (hatN : attemptFind (extractModelSegment info.device_instance_id) (enums N) = some r) :
    PopulateDesktopCoordinates info enums budget = (if N < budget then some r else none) ∧
    (PopulateDesktopCoordinates info enums budget = none ↔ budget ≤ N) := by
  have h := populateLoop_spec (extractModelSegment info.device_instance_id) enums N r
    hbefore hatN budget 0 (Nat.zero_le N)
  rw [Nat.zero_add] at h
  have hmain : PopulateDesktopCoordinates info enums budget
      = (if N < budget then some r else none) := h
  refine ⟨hmain, ?_⟩
  rw [hmain]
  split_ifs with hlt
  · exact ⟨fun hx => by simp at hx, fun hle => absurd hlt (Nat.not_lt.mpr hle)⟩
  · exact ⟨fun _ => Nat.le_of_not_lt hlt, fun _ => rfl⟩

/-- Witness for C9: the synthetic enumeration that only matches from
attempt 3 on succeeds with budget 20 (and its failure is equivalent to
`20 <= 3`, which is false). -/
theorem populate_desktop_retry_witness :
    (∀ j, j < 3 →
      attemptFind (extractModelSegment sampleEdidInfo.device_instance_id) (sampleEnums j)
        = none) ∧
    attemptFind (extractModelSegment sampleEdidInfo.device_instance_id) (sampleEnums 3)
      = some ⟨2560, 0, 1920, 1080⟩ ∧
    (PopulateDesktopCoordinates sampleEdidInfo sampleEnums 20
        = (if 3 < 20 then some ⟨2560, 0, 1920, 1080⟩ else none) ∧
     (PopulateDesktopCoordinates sampleEdidInfo sampleEnums 20 = none ↔ 20 ≤ 3)) := by
  have hb : ∀ j, j < 3 →
      attemptFind (extractModelSegment sampleEdidInfo.device_instance_id) (sampleEnums j)
        = none := by decide
  have ha : attemptFind (extractModelSegment sampleEdidInfo.device_instance_id) (sampleEnums 3)
      = some ⟨2560, 0, 1920, 1080⟩ := by decide
  exact ⟨hb, ha, populate_desktop_retry sampleEdidInfo sampleEnums 20 3 ⟨2560, 0, 1920, 1080⟩ hb ha⟩

end RayneoDriver
